import Mathlib

/-
Verification of the session-mode dispatcher and order-ledger workflow of
src/app.py (a Telegram bot relaying chat messages to chatbot endpoints and
to a Google-Sheets order ledger).

The Python code is shallowly embedded: strings are Lean Strings, the
per-line parsing works on lists of characters with structurally recursive
helpers mirroring the Python string operations (split, strip, lower,
startswith, the substring test of the `in` operator), the spreadsheet is a
World record holding the order rows and the log rows, and the chatbot HTTP
call is an inductive describing the possible outcomes of the single
requests.post attempt.  All helpers are restricted to ASCII, which covers
every string the handlers compare against.
-/

namespace App

/-! ## Python string primitives (ASCII) -/

/-- Whitespace characters removed by the Python str.strip method. -/
def isPyWhitespace (c : Char) : Bool :=
  c == ' ' || c == '\t' || c == '\n' || c == '\r' || c == '\x0b' || c == '\x0c'

/-- Drop leading whitespace from a character list. -/
def dropLeading : List Char → List Char
  | [] => []
  | c :: cs => if isPyWhitespace c then dropLeading cs else c :: cs

/-- Python str.strip: remove leading and trailing whitespace. -/
def pyStrip (l : List Char) : List Char :=
  ((dropLeading ((dropLeading l).reverse)).reverse)

/-- Python str.lower on a single ASCII character. -/
def pyLowerChar (c : Char) : Char :=
  if 'A' ≤ c && c ≤ 'Z' then Char.ofNat (c.toNat + 32) else c

/-- Python str.lower on a character list. -/
def pyLower (l : List Char) : List Char := l.map pyLowerChar

/-- Python str.lower on a String. -/
def pyLowerStr (s : String) : String := ⟨pyLower s.data⟩

/-- Python str.startswith on character lists. -/
def startsWithList : List Char → List Char → Bool
  | [], _ => true
  | _ :: _, [] => false
  | a :: as, b :: bs => a == b && startsWithList as bs

/-- Python substring membership (the `in` operator) on character lists:
does the haystack contain the needle as a contiguous run. -/
def containsSubList (needle : List Char) : List Char → Bool
  | [] => startsWithList needle []
  | c :: cs => startsWithList needle (c :: cs) || containsSubList needle cs

/-- Python substring membership at the String level. -/
def strContains (hay needle : String) : Bool :=
  containsSubList needle.data hay.data

/-- Python str.split(sep) for a one-character separator, keeping empty
parts, so that splitting the empty list gives one empty part. -/
def splitOnChar (sep : Char) : List Char → List (List Char)
  | [] => [[]]
  | c :: cs =>
    if c == sep then [] :: splitOnChar sep cs
    else
      match splitOnChar sep cs with
      | [] => [[c]]
      | p :: ps => (c :: p) :: ps

/-- Python line.split(sep, 1) for a one-character separator: cut at the
first occurrence only, or fail when the separator is absent. -/
def splitFirstChar (sep : Char) : List Char → Option (List Char × List Char)
  | [] => none
  | c :: cs =>
    if c == sep then some ([], cs)
    else
      match splitFirstChar sep cs with
      | some (a, b) => some (c :: a, b)
      | none => none

/-! ## The order parser (app.py lines 150-161, parse_order_message) -/

/-- A fully parsed order submission: the four required fields. -/
structure OrderData where
  nama : String
  kodeBarang : String
  alamat : String
  resi : String
deriving DecidableEq

/-- The partially filled dictionary built while scanning the lines. -/
structure ParseState where
  nama : Option (List Char)
  kodeBarang : Option (List Char)
  alamat : Option (List Char)
  resi : Option (List Char)
deriving DecidableEq

/-- The value a single line contributes for a given label: the line is cut
at its first colon, the key is stripped and lowercased, and when the key
contains the label as a substring the stripped value is produced. -/
def labelValue (lab : List Char) (line : List Char) : Option (List Char) :=
  match splitFirstChar ':' line with
  | none => none
  | some (k, v) =>
    if containsSubList lab (pyLower (pyStrip k)) then some (pyStrip v) else none

/-- One iteration of the parsing loop: each of the four keyword checks is
an independent if, exactly as in the Python source. -/
def applyLine (d : ParseState) (line : List Char) : ParseState :=
  match splitFirstChar ':' line with
  | none => d
  | some (k, v) =>
    let key := pyLower (pyStrip k)
    let value := pyStrip v
    let d1 := if containsSubList "nama".data key then { d with nama := some value } else d
    let d2 := if containsSubList "kode barang".data key then { d1 with kodeBarang := some value } else d1
    let d3 := if containsSubList "alamat".data key then { d2 with alamat := some value } else d2
    if containsSubList "resi".data key then { d3 with resi := some value } else d3

/-- The lines of a message, as in Python message.split of a newline. -/
def linesOf (msg : String) : List (List Char) := splitOnChar '\n' msg.data

/-- parse_order_message: fold the lines over the empty dictionary and
succeed exactly when all four keys were assigned. -/
def parse_order_message (msg : String) : Option OrderData :=
  match (linesOf msg).foldl applyLine ⟨none, none, none, none⟩ with
  | ⟨some n, some k, some a, some r⟩ => some ⟨⟨n⟩, ⟨k⟩, ⟨a⟩, ⟨r⟩⟩
  | _ => none

/-! ## Date parsing and rendering (app.py lines 178-182)

The Python code takes the part of the stored date before the first space,
parses it with datetime.strptime and format %Y-%m-%d, and re-renders with
strftime %d %b %Y.  In the CPython _strptime tables %Y is the regex of
exactly four digits while %m and %d accept 1 or 2 digits; the whole
string must be consumed, and the datetime constructor then validates the
calendar range (year at least 1, month 1..12, day within the month,
Gregorian leap years). -/

def isDigitChar (c : Char) : Bool := '0' ≤ c && c ≤ '9'

def natOfDigits (l : List Char) : Nat :=
  l.foldl (fun n c => n * 10 + (c.toNat - 48)) 0

def isLeapYear (y : Nat) : Bool :=
  y % 4 == 0 && (y % 100 != 0 || y % 400 == 0)

def daysInMonth (y m : Nat) : Nat :=
  if m == 2 then (if isLeapYear y then 29 else 28)
  else if m == 4 || m == 6 || m == 9 || m == 11 then 30
  else 31

/-- datetime.strptime with format %Y-%m-%d, as a total function returning
none exactly when CPython raises ValueError. -/
def strptimeYMD (l : List Char) : Option (Nat × Nat × Nat) :=
  match splitOnChar '-' l with
  | [ys, ms, ds] =>
    let y := natOfDigits ys
    let m := natOfDigits ms
    let d := natOfDigits ds
    if ys.all isDigitChar ∧ ms.all isDigitChar ∧ ds.all isDigitChar ∧
       ms ≠ [] ∧ ds ≠ [] ∧
       ys.length = 4 ∧ ms.length ≤ 2 ∧ ds.length ≤ 2 ∧
       1 ≤ y ∧ 1 ≤ m ∧ m ≤ 12 ∧ 1 ≤ d ∧ d ≤ daysInMonth y m
    then some (y, m, d) else none
  | _ => none

/-- Month abbreviations produced by strftime %b in the C locale. -/
def monthAbbr : Nat → String
  | 1 => "Jan" | 2 => "Feb" | 3 => "Mar" | 4 => "Apr"
  | 5 => "May" | 6 => "Jun" | 7 => "Jul" | 8 => "Aug"
  | 9 => "Sep" | 10 => "Oct" | 11 => "Nov" | 12 => "Dec"
  | _ => ""

/-- Two-digit zero padding of strftime %d. -/
def pad2 (n : Nat) : String := if n < 10 then "0" ++ Nat.repr n else Nat.repr n

/-- The part of a string before its first space, Python split-on-space
then index 0. -/
def beforeFirstSpace (s : String) : List Char :=
  match splitOnChar ' ' s.data with
  | [] => []
  | f :: _ => f

/-- The date rendering of cek_resi_sheets: strptime the pre-space part of
the stored value; on success re-render as day month year, on ValueError
fall back to the raw stored value. -/
def formatOrderDate (raw : String) : String :=
  match strptimeYMD (beforeFirstSpace raw) with
  | some (y, m, d) => pad2 d ++ " " ++ monthAbbr m ++ " " ++ Nat.repr y
  | none => raw

/-! ## The spreadsheet world (app.py lines 163-228)

The order worksheet holds a header row (and possibly other non-record
rows, counted by preRows) followed by the order records; get_all_records
returns the records, get_all_values returns every raw row.  The log
worksheet is a list of timestamp-message pairs.  connOk models whether
get_sheets_connection succeeds; exceptions thrown by the gspread calls
themselves are outside the model, so every modelled sheet operation on a
live connection succeeds. -/

/-- One record of the order worksheet, one column per field, in the
layout written by input_data_sheets and read back by get_all_records. -/
structure OrderRow where
  rowNum : Nat
  id_order : String
  tanggal_order : String
  nama : String
  kode_barang : String
  alamat : String
  resi : String
  status_pengiriman : String
  chatId : Nat
deriving DecidableEq

/-- The external state touched by the handlers. -/
structure World where
  connOk : Bool
  preRows : Nat
  ledger : List OrderRow
  logRows : List (String × String)
  now : String
deriving DecidableEq

/-- len of get_all_values on the order worksheet: header and other
non-record rows plus the records. -/
def rowCount (w : World) : Nat := w.preRows + w.ledger.length

/-- log_to_sheet (app.py lines 218-228): append a timestamped row to the
log worksheet, silently doing nothing when the connection fails. -/
def log_to_sheet (m : String) (w : World) : World :=
  if w.connOk then { w with logRows := w.logRows ++ [(w.now, m)] } else w

/-- The new row built by input_data_sheets (app.py lines 204-210). -/
def newOrderRow (chatId : Nat) (d : OrderData) (w : World) : OrderRow :=
  { rowNum := rowCount w
  , id_order := "ORD-" ++ Nat.repr (rowCount w)
  , tanggal_order := w.now
  , nama := d.nama
  , kode_barang := d.kodeBarang
  , alamat := d.alamat
  , resi := d.resi
  , status_pengiriman := "Sedang dikemas"
  , chatId := chatId }

/-- input_data_sheets (app.py lines 197-216): read the raw row count,
derive the order id from it, append the new record, return the id; when
the connection fails return none and leave the sheet untouched. -/
def input_data_sheets (chatId : Nat) (d : OrderData) (w : World) : Option String × World :=
  if w.connOk then
    (some ("ORD-" ++ Nat.repr (rowCount w)),
     { w with ledger := w.ledger ++ [newOrderRow chatId d w] })
  else (none, w)

/-- The formatted summary returned for a found record (app.py lines
183-189). -/
def resiSummary (resi : String) (r : OrderRow) : String :=
  "Info Resi <b>" ++ resi ++ "</b>\n\n" ++
  "ID Order: " ++ r.id_order ++ "\n" ++
  "Tanggal Order: " ++ formatOrderDate r.tanggal_order ++ "\n" ++
  "Nama: " ++ r.nama ++ "\n" ++
  "Kode Barang: " ++ r.kode_barang ++ "\n" ++
  "Alamat: " ++ r.alamat ++ "\n" ++
  "Status Pengiriman: <b>" ++ r.status_pengiriman ++ "</b>"

/-- cek_resi_sheets (app.py lines 163-195): reject an empty query before
any sheet access, then scan all records linearly and return the summary
of the first whose resi column matches case-insensitively, or the
not-found message. -/
def cek_resi_sheets (resi : String) (w : World) : String :=
  if resi = "" then
    "Format pencarian tidak valid. Gunakan: <code>cari [nomor resi]</code>"
  else if !w.connOk then
    "Gagal terhubung ke database Google Sheets."
  else
    match w.ledger.find? (fun r => pyLowerStr r.resi == pyLowerStr resi) with
    | some r => resiSummary resi r
    | none => "Resi <b>" ++ resi ++ "</b> tidak ditemukan."

/-- handle_ticket_system (app.py lines 128-148): dispatch on the message
text — the cari prefix triggers the lookup, the presence of both field
markers triggers a submission attempt, anything else gets the help
message.  The returned pair is the reply text and the updated world. -/
def handle_ticket_system (chatId : Nat) (msg : String) (w : World) : String × World :=
  let lower := pyLower msg.data
  if startsWithList "cari ".data lower then
    (cek_resi_sheets ⟨pyStrip (msg.data.drop 5)⟩ w, w)
  else if containsSubList "nama:".data lower && containsSubList "kode barang:".data lower then
    match parse_order_message msg with
    | some d =>
      match input_data_sheets chatId d w with
      | (some idOrder, w2) =>
        ("Data berhasil disimpan dengan ID Order <b>" ++ idOrder ++ "</b>", w2)
      | (none, w2) => ("Data gagal disimpan.", w2)
    | none =>
      ("Format data yang Anda kirim tidak lengkap atau salah. Data tidak dapat disimpan.", w)
  else
    ("Perintah tidak dikenali dalam mode Tiket.\n\n" ++
     "Gunakan format:\n- <code>cari [nomor resi]</code>\n" ++
     "- atau kirim data order lengkap.\n\n" ++
     "Kirim /stop untuk keluar dari mode ini.", w)

/-! ## The chatbot relay (app.py lines 113-126)

handle_chatbot makes a single requests.post with a 30 second timeout.
Every transport-level outcome of that call is a constructor of ApiResult:
a timeout, another connection-level RequestException, or an HTTP response
carrying a status and, when the body is well-formed JSON, the decoded
body.  raise_for_status raises HTTPError for statuses 400-599, and a
malformed body makes response.json raise JSONDecodeError; both are
RequestException subclasses, so the single except branch catches every
failure, logs once through the local logger, and substitutes the fixed
error reply.  The function never touches the spreadsheet. -/

/-- The JSON body of a chatbot response: the three fields the handler
looks at, each possibly absent. -/
structure ChatBody where
  result : Option String
  message : Option String
  answer : Option String
deriving DecidableEq

/-- The outcome of the single requests.post call. -/
inductive ApiResult where
  | timeout
  | connError
  | response (status : Nat) (body : Option ChatBody)
deriving DecidableEq

/-- requests raise_for_status: raises exactly for 4xx and 5xx statuses. -/
def raisesForStatus (status : Nat) : Bool := 400 ≤ status && status < 600

/-- Python or-chaining over optional strings: an absent or empty left
operand falls through to the right operand. -/
def pyOrElse (a : Option String) (b : String) : String :=
  match a with
  | some s => if s = "" then b else s
  | none => b

/-- The reply extraction of line 122: result or message or the answer
field with the fixed fallback default. -/
def extractReply (b : ChatBody) : String :=
  pyOrElse b.result (pyOrElse b.message
    (match b.answer with
     | some s => s
     | none => "Maaf, chatbot tidak dapat merespons saat ini."))

/-- What a call to handle_chatbot produces: the reply sent to the user,
the world after the call, the number of logger.error lines emitted, and
the number of HTTP attempts made. -/
structure ChatOutcome where
  reply : String
  world : World
  localLogs : Nat
  apiCalls : Nat
deriving DecidableEq

/-- handle_chatbot (app.py lines 113-126) as a function of the outcome of
its single HTTP attempt. -/
def handle_chatbot (r : ApiResult) (w : World) : ChatOutcome :=
  match r with
  | .timeout => ⟨"⚠ Terjadi kesalahan saat mengakses chatbot.", w, 1, 1⟩
  | .connError => ⟨"⚠ Terjadi kesalahan saat mengakses chatbot.", w, 1, 1⟩
  | .response status body =>
    if raisesForStatus status then
      ⟨"⚠ Terjadi kesalahan saat mengakses chatbot.", w, 1, 1⟩
    else
      match body with
      | none => ⟨"⚠ Terjadi kesalahan saat mengakses chatbot.", w, 1, 1⟩
      | some b => ⟨extractReply b, w, 0, 1⟩

/-! ## The session state store (app.py lines 37-111)

user_states is a module-level dict from chat id to mode string.  The
button handler assigns unconditionally, handle_message reads with get,
and the stop command deletes the entry only when present.  A dict whose
values are only ever mode strings is observationally a function from chat
ids to optional strings. -/

def SessionMap := Nat → Option String

/-- user_states assignment: the button handler of line 88. -/
def user_states_set (s : SessionMap) (u : Nat) (m : String) : SessionMap :=
  fun v => if v = u then some m else s v

/-- user_states.get: the mode lookup of line 103. -/
def user_states_get (s : SessionMap) (u : Nat) : Option String := s u

/-- The stop command of lines 75-81: delete the entry when present,
leave the dict alone when absent; in both cases no exception. -/
def user_states_clear (s : SessionMap) (u : Nat) : SessionMap :=
  fun v => if v = u then none else s v

/-- The operations other handlers may interleave on the session store. -/
inductive SOp where
  | setMode (u : Nat) (m : String)
  | clearMode (u : Nat)

/-- Run one session-store operation. -/
def applySOp (s : SessionMap) : SOp → SessionMap
  | .setMode u m => user_states_set s u m
  | .clearMode u => user_states_clear s u

/-- Run a list of session-store operations in order. -/
def applySOps (s : SessionMap) (ops : List SOp) : SessionMap :=
  ops.foldl applySOp s

/-- Whether an operation addresses the given user. -/
def touchesUser (u : Nat) : SOp → Bool
  | .setMode v _ => v == u
  | .clearMode v => v == u

/-! ## Characterizations used by the parser theorems -/

/-- Merge an update into an optional slot: a new value overwrites, no new
value keeps the old content. -/
def updOpt (a b : Option (List Char)) : Option (List Char) :=
  match a with
  | some v => some v
  | none => b

/-- The value of the last line whose key matches the label: the parser is
claimed to retain exactly this. -/
def lastMatchValue (lab : List Char) (lines : List (List Char)) : Option (List Char) :=
  (lines.filterMap (labelValue lab)).getLast?

/-- Whether some line of the input carries the given label. -/
def hasLabel (lab : List Char) (lines : List (List Char)) : Bool :=
  lines.any (fun l => (labelValue lab l).isSome)

/-! ## Spec-side date conformance (claim wording)

Modelled from the spec wording of the date-formatting claim: a stored
value conforms when it is a date of the literal shape YYYY-MM-DD,
optionally followed by one space and a time such as 10:00:00.  This is
deliberately a second, independent definition, to be compared against the
behaviour of formatOrderDate taken from the source. -/

def validCalendarYMD (y m d : Nat) : Bool :=
  decide (1 ≤ y ∧ 1 ≤ m ∧ m ≤ 12 ∧ 1 ≤ d ∧ d ≤ daysInMonth y m)

/-- A four-digit year, two-digit month, two-digit day date, valid on the
calendar. -/
def isStrictYMDChars : List Char → Bool
  | [y1, y2, y3, y4, c1, m1, m2, c2, d1, d2] =>
    [y1, y2, y3, y4, m1, m2, d1, d2].all isDigitChar && c1 == '-' && c2 == '-' &&
    validCalendarYMD (natOfDigits [y1, y2, y3, y4]) (natOfDigits [m1, m2]) (natOfDigits [d1, d2])
  | _ => false

/-- A clock time of the shape HH:MM:SS. -/
def isTimeChars : List Char → Bool
  | [h1, h2, c1, n1, n2, c2, s1, s2] =>
    [h1, h2, n1, n2, s1, s2].all isDigitChar && c1 == ':' && c2 == ':' &&
    decide (natOfDigits [h1, h2] ≤ 23 ∧ natOfDigits [n1, n2] ≤ 59 ∧ natOfDigits [s1, s2] ≤ 59)
  | _ => false

/-- The conformance predicate of the claim: YYYY-MM-DD, optionally
followed by a single space and a time. -/
def specDateConforms (s : String) : Bool :=
  match splitFirstChar ' ' s.data with
  | none => isStrictYMDChars s.data
  | some (d, t) => isStrictYMDChars d && isTimeChars t

/-! ## Spec-side failure classification for the chatbot relay -/

/-- The transport-level failures of the single HTTP attempt: a timeout, a
connection error, an HTTP error status (the 4xx and 5xx statuses that
raise_for_status raises for), or a malformed body. -/
def isTransportFailure : ApiResult → Bool
  | .timeout => true
  | .connError => true
  | .response s b => raisesForStatus s || b.isNone

/-! ## Helper lemmas -/

theorem startsWithList_self_append (n t : List Char) :
    startsWithList n (n ++ t) = true := by
  induction n with
  | nil => rfl
  | cons c cs ih => simp [startsWithList, ih]

theorem containsSubList_append_left (n s t : List Char)
    (h : containsSubList n t = true) : containsSubList n (s ++ t) = true := by
  induction s with
  | nil => simpa using h
  | cons c cs ih => simp [containsSubList, ih]

theorem containsSubList_self_append (n t : List Char) :
    containsSubList n (n ++ t) = true := by
  cases n with
  | nil =>
    cases t with
    | nil => rfl
    | cons c cs => simp [containsSubList, startsWithList]
  | cons c cs => simp [containsSubList, startsWithList, startsWithList_self_append]

theorem strContains_middle (p x s : String) :
    strContains (p ++ x ++ s) x = true := by
  simp only [strContains, String.data_append, List.append_assoc]
  exact containsSubList_append_left _ _ _ (containsSubList_self_append _ _)

/-- Every summary produced for a found record contains the stored name,
item code, address and delivery status verbatim. -/
theorem resiSummary_contains_fields (q : String) (r : OrderRow) :
    strContains (resiSummary q r) r.nama = true ∧
    strContains (resiSummary q r) r.kode_barang = true ∧
    strContains (resiSummary q r) r.alamat = true ∧
    strContains (resiSummary q r) r.status_pengiriman = true := by
  refine ⟨?_, ?_, ?_, ?_⟩ <;>
  · simp only [resiSummary, strContains, String.data_append, List.append_assoc]
    repeat first
      | exact containsSubList_self_append _ _
      | apply containsSubList_append_left

/-! ## Claim theorems: the chatbot relay -/

/-- Claim C2 counterexample: on a timeout the relay writes nothing to the
Log table — the log worksheet does not gain the entry the claim demands
(the except branch of handle_chatbot only calls the local logger, never
log_to_sheet). -/
theorem c2_timeout_writes_no_log_table_entry :
    (handle_chatbot ApiResult.timeout
        ⟨true, 1, [], [], "2024-01-01 00:00:00"⟩).world.logRows.length ≠
      (⟨true, 1, [], [], "2024-01-01 00:00:00"⟩ : World).logRows.length + 1 := by
  decide

/-- Claim C2 (amended): for every transport-level failure of the relay
call (timeout, connection error, 4xx or 5xx status, malformed body) the
relay returns the fixed user-facing error string, makes exactly one HTTP
attempt (no retry), writes exactly one diagnostic entry to the local
application log, and leaves the spreadsheet — including the Log table —
untouched. -/
theorem c2_transport_failure_behaviour (r : ApiResult) (w : World)
    (h : isTransportFailure r = true) :
    handle_chatbot r w =
      ⟨"⚠ Terjadi kesalahan saat mengakses chatbot.", w, 1, 1⟩ := by
  cases r with
  | timeout => rfl
  | connError => rfl
  | response s b =>
    simp only [isTransportFailure, Bool.or_eq_true] at h
    cases hrs : raisesForStatus s with
    | true => simp [handle_chatbot, hrs]
    | false =>
      cases b with
      | none => simp [handle_chatbot, hrs]
      | some body => simp [hrs, Option.isNone] at h

theorem c2_transport_failure_behaviour_witness :
    isTransportFailure ApiResult.timeout = true ∧
    handle_chatbot ApiResult.timeout ⟨true, 1, [], [], "t"⟩ =
      ⟨"⚠ Terjadi kesalahan saat mengakses chatbot.", ⟨true, 1, [], [], "t"⟩, 1, 1⟩ :=
  ⟨rfl, c2_transport_failure_behaviour ApiResult.timeout ⟨true, 1, [], [], "t"⟩ rfl⟩

/-- Claim C3: for every 200-status JSON body the relay checks result,
message, answer in that fixed priority order with the first non-empty
field winning, and returns the fixed cannot-respond fallback when none of
the three fields is present. -/
theorem c3_reply_priority (b : ChatBody) (w : World) :
    (∀ r, b.result = some r → r ≠ "" →
      (handle_chatbot (ApiResult.response 200 (some b)) w).reply = r) ∧
    ((b.result = none ∨ b.result = some "") → ∀ m, b.message = some m → m ≠ "" →
      (handle_chatbot (ApiResult.response 200 (some b)) w).reply = m) ∧
    ((b.result = none ∨ b.result = some "") → (b.message = none ∨ b.message = some "") →
      ∀ a, b.answer = some a → a ≠ "" →
      (handle_chatbot (ApiResult.response 200 (some b)) w).reply = a) ∧
    (b.result = none → b.message = none → b.answer = none →
      (handle_chatbot (ApiResult.response 200 (some b)) w).reply =
        "Maaf, chatbot tidak dapat merespons saat ini.") := by
  refine ⟨?_, ?_, ?_, ?_⟩
  · intro r hr hne
    simp [handle_chatbot, raisesForStatus, extractReply, pyOrElse, hr, hne]
  · rintro (h1 | h1) m hm hne <;>
      simp [handle_chatbot, raisesForStatus, extractReply, pyOrElse, h1, hm, hne]
  · rintro (h1 | h1) (h2 | h2) a ha hne <;>
      simp [handle_chatbot, raisesForStatus, extractReply, pyOrElse, h1, h2, ha]
  · intro h1 h2 h3
    simp [handle_chatbot, raisesForStatus, extractReply, pyOrElse, h1, h2, h3]

theorem find?_first_match {α : Type} (p : α → Bool) (pre post : List α) (r : α)
    (hpre : ∀ x ∈ pre, p x = false) (hr : p r = true) :
    (pre ++ r :: post).find? p = some r := by
  induction pre with
  | nil => simpa using List.find?_cons_of_pos post hr
  | cons a as ih =>
    have ha : p a = false := hpre a (List.mem_cons_self a as)
    rw [List.cons_append, List.find?_cons_of_neg _ (by simp [ha])]
    exact ih fun x hx => hpre x (List.mem_cons_of_mem a hx)

/-- Claim C6: a non-empty tracking-number lookup scans the ledger rows in
order; when no row matches case-insensitively the fixed not-found message
comes back, and when one does, the summary of the first matching row
comes back and contains the stored name, item code, address and status
verbatim. -/
theorem c6_tracking_lookup (q : String) (w : World)
    (hq : q ≠ "") (hconn : w.connOk = true) :
    ((∀ x ∈ w.ledger, pyLowerStr x.resi ≠ pyLowerStr q) →
      cek_resi_sheets q w = "Resi <b>" ++ q ++ "</b> tidak ditemukan.") ∧
    (∀ pre r post, w.ledger = pre ++ r :: post →
      (∀ x ∈ pre, pyLowerStr x.resi ≠ pyLowerStr q) →
      pyLowerStr r.resi = pyLowerStr q →
      (cek_resi_sheets q w = resiSummary q r ∧
       strContains (resiSummary q r) r.nama = true ∧
       strContains (resiSummary q r) r.kode_barang = true ∧
       strContains (resiSummary q r) r.alamat = true ∧
       strContains (resiSummary q r) r.status_pengiriman = true)) := by
  have hcek : cek_resi_sheets q w =
      match w.ledger.find? (fun x => pyLowerStr x.resi == pyLowerStr q) with
      | some r => resiSummary q r
      | none => "Resi <b>" ++ q ++ "</b> tidak ditemukan." := by
    simp [cek_resi_sheets, hq, hconn]
  constructor
  · intro hnone
    have hfind : w.ledger.find? (fun x => pyLowerStr x.resi == pyLowerStr q) = none :=
      List.find?_eq_none.mpr fun x hx => by simp [hnone x hx]
    rw [hcek, hfind]
  · intro pre r post hsplit hpre hr
    have hfind : w.ledger.find? (fun x => pyLowerStr x.resi == pyLowerStr q) = some r := by
      rw [hsplit]
      exact find?_first_match _ pre post r (fun x hx => by simp [hpre x hx]) (by simp [hr])
    obtain ⟨h1, h2, h3, h4⟩ := resiSummary_contains_fields q r
    exact ⟨by rw [hcek, hfind], h1, h2, h3, h4⟩

theorem c6_tracking_lookup_witness :
    (("r1" : String) ≠ "") ∧
    pyLowerStr "R1" = pyLowerStr "r1" ∧
    cek_resi_sheets "r1"
        ⟨true, 1,
         [⟨1, "ORD-1", "2024-03-05", "n0", "k0", "a0", "X", "s0", 5⟩,
          ⟨2, "ORD-2", "2024-03-05", "n1", "k1", "a1", "R1", "s1", 7⟩], [], "t"⟩ =
      resiSummary "r1" ⟨2, "ORD-2", "2024-03-05", "n1", "k1", "a1", "R1", "s1", 7⟩ :=
  ⟨by decide, by decide,
   ((c6_tracking_lookup "r1"
        ⟨true, 1,
         [⟨1, "ORD-1", "2024-03-05", "n0", "k0", "a0", "X", "s0", 5⟩,
          ⟨2, "ORD-2", "2024-03-05", "n1", "k1", "a1", "R1", "s1", 7⟩], [], "t"⟩
        (by decide) rfl).2
      [⟨1, "ORD-1", "2024-03-05", "n0", "k0", "a0", "X", "s0", 5⟩]
      ⟨2, "ORD-2", "2024-03-05", "n1", "k1", "a1", "R1", "s1", 7⟩
      [] rfl (by decide) (by decide)).1⟩

/-! Lemmas connecting the two splitting helpers, used for the date
conformance bridge. -/

theorem splitOnChar_of_firstNone (c : Char) (l : List Char)
    (h : splitFirstChar c l = none) : splitOnChar c l = [l] := by
  induction l with
  | nil => rfl
  | cons x xs ih =>
    by_cases hx : (x == c) = true
    · simp [splitFirstChar, hx] at h
    · have hx' : (x == c) = false := by simpa using hx
      simp only [splitFirstChar, hx', Bool.false_eq_true, if_false] at h
      cases hin : splitFirstChar c xs with
      | some ab => rw [hin] at h; rcases ab with ⟨a, b⟩; simp at h
      | none =>
        simp [splitOnChar, hx', ih hin]

theorem splitOnChar_of_firstSome (c : Char) (l a b : List Char)
    (h : splitFirstChar c l = some (a, b)) : splitOnChar c l = a :: splitOnChar c b := by
  induction l generalizing a b with
  | nil => simp [splitFirstChar] at h
  | cons x xs ih =>
    by_cases hx : (x == c) = true
    · simp only [splitFirstChar, hx, if_true] at h
      rcases h with ⟨rfl, rfl⟩
      simp [splitOnChar, hx]
    · have hx' : (x == c) = false := by simpa using hx
      simp only [splitFirstChar, hx', Bool.false_eq_true, if_false] at h
      cases hin : splitFirstChar c xs with
      | none => rw [hin] at h; simp at h
      | some ab =>
        rcases ab with ⟨a0, b0⟩
        rw [hin] at h
        simp only [Option.some.injEq, Prod.mk.injEq] at h
        rcases h with ⟨rfl, rfl⟩
        simp [splitOnChar, hx', ih a0 b0 hin]

theorem beforeFirstSpace_of_none (s : String) (h : splitFirstChar ' ' s.data = none) :
    beforeFirstSpace s = s.data := by
  unfold beforeFirstSpace
  rw [splitOnChar_of_firstNone ' ' s.data h]

theorem beforeFirstSpace_of_some (s : String) (a b : List Char)
    (h : splitFirstChar ' ' s.data = some (a, b)) : beforeFirstSpace s = a := by
  unfold beforeFirstSpace
  rw [splitOnChar_of_firstSome ' ' s.data a b h]

theorem digit_beq_dash (c : Char) (h : isDigitChar c = true) : (c == '-') = false := by
  cases hbe : c == '-' with
  | false => rfl
  | true =>
    have hc : c = '-' := eq_of_beq hbe
    subst hc
    exact absurd h (by decide)

/-- Every string of the strict YYYY-MM-DD shape is accepted by the
embedded strptime. -/
theorem strptimeYMD_of_strict (l : List Char) (h : isStrictYMDChars l = true) :
    ∃ y m d, strptimeYMD l = some (y, m, d) := by
  unfold isStrictYMDChars at h
  split at h
  case h_2 => exact absurd h (by simp)
  case h_1 y1 y2 y3 y4 c1 m1 m2 c2 d1 d2 =>
    simp only [Bool.and_eq_true, List.all_cons, List.all_nil, Bool.and_true, beq_iff_eq] at h
    obtain ⟨⟨⟨hdig, hc1⟩, hc2⟩, hval⟩ := h
    obtain ⟨h1, h2, h3, h4, h5, h6, h7, h8⟩ := hdig
    subst hc1
    subst hc2
    have hsplit : splitOnChar '-' [y1, y2, y3, y4, '-', m1, m2, '-', d1, d2] =
        [[y1, y2, y3, y4], [m1, m2], [d1, d2]] := by
      simp [splitOnChar, digit_beq_dash _ h1, digit_beq_dash _ h2, digit_beq_dash _ h3,
        digit_beq_dash _ h4, digit_beq_dash _ h5, digit_beq_dash _ h6,
        digit_beq_dash _ h7, digit_beq_dash _ h8]
    refine ⟨natOfDigits [y1, y2, y3, y4], natOfDigits [m1, m2], natOfDigits [d1, d2], ?_⟩
    have hcal := of_decide_eq_true hval
    unfold strptimeYMD
    rw [hsplit]
    dsimp only
    rw [if_pos]
    refine ⟨by simp [h1, h2, h3, h4], by simp [h5, h6], by simp [h7, h8],
      by simp, by simp, by simp, by simp, by simp, ?_, ?_, ?_, ?_, ?_⟩
    · exact hcal.1
    · exact hcal.2.1
    · exact hcal.2.2.1
    · exact hcal.2.2.2.1
    · exact hcal.2.2.2.2

/-- Claim C7 counterexample: the stored value below is not of the claimed
conforming shape — what follows the space is not a time — yet the code
re-renders it instead of passing it through unchanged. -/
theorem c7_nonconforming_value_rerendered :
    specDateConforms "2024-03-05 xx" = false ∧
    formatOrderDate "2024-03-05 xx" = "05 Mar 2024" ∧
    ("05 Mar 2024" : String) ≠ "2024-03-05 xx" := by
  exact ⟨by decide, by decide, by decide⟩

/-- Claim C7 (amended): the summary date rendering strptimes the part of
the stored value before the first space (whatever follows the space is
discarded, time or not; the year must be exactly four digits, month and
day may also be one digit): when that part parses as a calendar date the
value is re-rendered as the padded day, abbreviated month and year, and
otherwise — exactly when strptime rejects — the raw stored value is
passed through unchanged.  Every value of the claimed strict conforming
shape is still re-rendered. -/
theorem c7_date_rendering (raw : String) :
    (specDateConforms raw = true →
      ∃ y m d, strptimeYMD (beforeFirstSpace raw) = some (y, m, d)) ∧
    (∀ y m d, strptimeYMD (beforeFirstSpace raw) = some (y, m, d) →
      formatOrderDate raw = pad2 d ++ " " ++ monthAbbr m ++ " " ++ Nat.repr y) ∧
    (strptimeYMD (beforeFirstSpace raw) = none → formatOrderDate raw = raw) := by
  refine ⟨?_, ?_, ?_⟩
  · intro h
    unfold specDateConforms at h
    cases hsp : splitFirstChar ' ' raw.data with
    | none =>
      rw [hsp] at h
      rw [beforeFirstSpace_of_none raw hsp]
      exact strptimeYMD_of_strict raw.data h
    | some ab =>
      rcases ab with ⟨a, b⟩
      rw [hsp] at h
      simp only [Bool.and_eq_true] at h
      rw [beforeFirstSpace_of_some raw a b hsp]
      exact strptimeYMD_of_strict a h.1
  · intro y m d h
    simp [formatOrderDate, h]
  · intro h
    simp [formatOrderDate, h]

theorem c7_date_rendering_witness :
    specDateConforms "2024-03-05 10:00:00" = true ∧
    formatOrderDate "2024-03-05 10:00:00" = "05 Mar 2024" ∧
    formatOrderDate "05/03/2024" = "05/03/2024" ∧
    formatOrderDate "900-01-01" = "900-01-01" :=
  ⟨by decide,
   ((c7_date_rendering "2024-03-05 10:00:00").2.1 2024 3 5 (by decide)).trans (by decide),
   (c7_date_rendering "05/03/2024").2.2 (by decide),
   (c7_date_rendering "900-01-01").2.2 (by decide)⟩

/-! ## Claim theorems: the session state store -/

theorem applySOps_preserves (u : Nat) (val : Option String) :
    ∀ (ops : List SOp) (s : SessionMap), (∀ op ∈ ops, touchesUser u op = false) →
      user_states_get s u = val → user_states_get (applySOps s ops) u = val := by
  intro ops
  induction ops with
  | nil => intro s _ h; exact h
  | cons op ops ih =>
    intro s hops h
    have hop : touchesUser u op = false := hops op (List.mem_cons_self op ops)
    have hrest : ∀ o ∈ ops, touchesUser u o = false :=
      fun o ho => hops o (List.mem_cons_of_mem op ho)
    refine ih (applySOp s op) hrest ?_
    rw [← h]
    cases op with
    | setMode v m =>
      have hne : ¬(u = v) := fun he => by simp [touchesUser, he] at hop
      simp [applySOp, user_states_set, user_states_get, hne]
    | clearMode v =>
      have hne : ¬(u = v) := fun he => by simp [touchesUser, he] at hop
      simp [applySOp, user_states_clear, user_states_get, hne]

/-- Claim C8: a set for a user is observable by every later get for that
user until an operation addressing that user runs again, a second set
overwrites the first, and clearing a user with no session leaves the
store exactly as it was (and, being a total function, cannot raise). -/
theorem c8_session_store_contract (s : SessionMap) (u : Nat) (m m2 : String)
    (ops : List SOp) (hops : ∀ op ∈ ops, touchesUser u op = false) :
    user_states_get (applySOps (user_states_set s u m) ops) u = some m ∧
    user_states_get (user_states_set (user_states_set s u m2) u m) u = some m ∧
    (user_states_get s u = none → user_states_clear s u = s) := by
  refine ⟨?_, ?_, ?_⟩
  · exact applySOps_preserves u (some m) ops (user_states_set s u m) hops
      (by simp [user_states_get, user_states_set])
  · simp [user_states_get, user_states_set]
  · intro h
    funext v
    by_cases hv : v = u
    · subst hv; simpa [user_states_clear] using h.symm
    · simp [user_states_clear, hv]

theorem c8_session_store_contract_witness :
    (∀ op ∈ [SOp.setMode 2 "chatbot_product", SOp.clearMode 5], touchesUser 1 op = false) ∧
    user_states_get (applySOps (user_states_set (fun _ => none) 1 "ticket_system")
      [SOp.setMode 2 "chatbot_product", SOp.clearMode 5]) 1 = some "ticket_system" :=
  ⟨by decide,
   (c8_session_store_contract (fun _ => none) 1 "ticket_system" "chatbot_product"
      [SOp.setMode 2 "chatbot_product", SOp.clearMode 5] (by decide)).1⟩

/-! ## Claim theorems: the order workflow -/

/-- Claim C9: an order-mode submission whose text fails to parse gets the
fixed incomplete-format reply and leaves the world — ledger and Log table
alike — exactly as it was. -/
theorem c9_parse_failure_leaves_world_unchanged (chatId : Nat) (msg : String) (w : World)
    (hcari : startsWithList "cari ".data (pyLower msg.data) = false)
    (hm1 : containsSubList "nama:".data (pyLower msg.data) = true)
    (hm2 : containsSubList "kode barang:".data (pyLower msg.data) = true)
    (hparse : parse_order_message msg = none) :
    handle_ticket_system chatId msg w =
      ("Format data yang Anda kirim tidak lengkap atau salah. Data tidak dapat disimpan.", w) := by
  simp [handle_ticket_system, hcari, hm1, hm2, hparse]

theorem c9_parse_failure_leaves_world_unchanged_witness :
    parse_order_message "nama: a\nkode barang: b" = none ∧
    handle_ticket_system 7 "nama: a\nkode barang: b" ⟨true, 1, [], [], "t"⟩ =
      ("Format data yang Anda kirim tidak lengkap atau salah. Data tidak dapat disimpan.",
       ⟨true, 1, [], [], "t"⟩) :=
  ⟨by decide,
   c9_parse_failure_leaves_world_unchanged 7 "nama: a\nkode barang: b" ⟨true, 1, [], [], "t"⟩
     (by decide) (by decide) (by decide) (by decide)⟩

theorem dropLeading_of_all_ws (l : List Char) (h : ∀ c ∈ l, isPyWhitespace c = true) :
    dropLeading l = [] := by
  induction l with
  | nil => rfl
  | cons c cs ih =>
    have hc := h c (List.mem_cons_self c cs)
    simp [dropLeading, hc, ih fun x hx => h x (List.mem_cons_of_mem c hx)]

theorem pyStrip_of_all_ws (l : List Char) (h : ∀ c ∈ l, isPyWhitespace c = true) :
    pyStrip l = [] := by
  unfold pyStrip
  rw [dropLeading_of_all_ws l h]
  rfl

/-- Claim C10: in order mode, a message that is the lookup prefix
followed by only whitespace gets the fixed invalid-search-format reply,
for every world whatsoever — the empty-query check returns before any
sheet access, so no ledger content can influence the result. -/
theorem c10_empty_lookup_short_circuits (chatId : Nat) (msg : String) (w : World)
    (hcari : startsWithList "cari ".data (pyLower msg.data) = true)
    (hws : ∀ c ∈ msg.data.drop 5, isPyWhitespace c = true) :
    handle_ticket_system chatId msg w =
      ("Format pencarian tidak valid. Gunakan: <code>cari [nomor resi]</code>", w) := by
  have hnil : pyStrip (msg.data.drop 5) = [] := pyStrip_of_all_ws _ hws
  have hempty : (⟨pyStrip (msg.data.drop 5)⟩ : String) = "" := by rw [hnil]
  simp [handle_ticket_system, hcari, cek_resi_sheets, hempty]

theorem c10_empty_lookup_short_circuits_witness :
    (∀ c ∈ "CARI   ".data.drop 5, isPyWhitespace c = true) ∧
    handle_ticket_system 7 "CARI   "
        ⟨true, 1, [⟨1, "ORD-1", "d", "n", "k", "a", "r", "s", 7⟩], [], "t"⟩ =
      ("Format pencarian tidak valid. Gunakan: <code>cari [nomor resi]</code>",
       ⟨true, 1, [⟨1, "ORD-1", "d", "n", "k", "a", "r", "s", 7⟩], [], "t"⟩) :=
  ⟨by decide,
   c10_empty_lookup_short_circuits 7 "CARI   "
     ⟨true, 1, [⟨1, "ORD-1", "d", "n", "k", "a", "r", "s", 7⟩], [], "t"⟩
     (by decide) (by decide)⟩

/-! Per-line and fold characterisation of the order parser. -/

theorem applyLine_nama (d : ParseState) (l : List Char) :
    (applyLine d l).nama = updOpt (labelValue "nama".data l) d.nama := by
  cases hsp : splitFirstChar ':' l with
  | none => simp [applyLine, labelValue, hsp, updOpt]
  | some kv =>
    obtain ⟨k, v⟩ := kv
    simp only [applyLine, labelValue, hsp]
    split_ifs <;> rfl

theorem applyLine_kodeBarang (d : ParseState) (l : List Char) :
    (applyLine d l).kodeBarang = updOpt (labelValue "kode barang".data l) d.kodeBarang := by
  cases hsp : splitFirstChar ':' l with
  | none => simp [applyLine, labelValue, hsp, updOpt]
  | some kv =>
    obtain ⟨k, v⟩ := kv
    simp only [applyLine, labelValue, hsp]
    split_ifs <;> rfl

theorem applyLine_alamat (d : ParseState) (l : List Char) :
    (applyLine d l).alamat = updOpt (labelValue "alamat".data l) d.alamat := by
  cases hsp : splitFirstChar ':' l with
  | none => simp [applyLine, labelValue, hsp, updOpt]
  | some kv =>
    obtain ⟨k, v⟩ := kv
    simp only [applyLine, labelValue, hsp]
    split_ifs <;> rfl

theorem applyLine_resi (d : ParseState) (l : List Char) :
    (applyLine d l).resi = updOpt (labelValue "resi".data l) d.resi := by
  cases hsp : splitFirstChar ':' l with
  | none => simp [applyLine, labelValue, hsp, updOpt]
  | some kv =>
    obtain ⟨k, v⟩ := kv
    simp only [applyLine, labelValue, hsp]
    split_ifs <;> rfl

theorem getLast?_cons_updOpt (x : List Char) (xs : List (List Char)) :
    (x :: xs).getLast? = updOpt xs.getLast? (some x) := by
  cases xs with
  | nil => rfl
  | cons y ys =>
    rw [List.getLast?_cons_cons]
    cases h : (y :: ys).getLast? with
    | none => exact absurd (List.getLast?_eq_none_iff.mp h) (by simp)
    | some z => rfl

theorem foldl_field (get : ParseState → Option (List Char)) (lab : List Char)
    (hstep : ∀ d l, get (applyLine d l) = updOpt (labelValue lab l) (get d)) :
    ∀ (lines : List (List Char)) (d : ParseState),
      get (lines.foldl applyLine d) = updOpt (lastMatchValue lab lines) (get d) := by
  intro lines
  induction lines with
  | nil => intro d; rfl
  | cons l ls ih =>
    intro d
    rw [List.foldl_cons, ih, hstep]
    unfold lastMatchValue
    rw [List.filterMap_cons]
    cases hl : labelValue lab l with
    | none => rfl
    | some v =>
      rw [getLast?_cons_updOpt]
      cases hx : (ls.filterMap (labelValue lab)).getLast? <;> rfl

theorem parse_state_nama (msg : String) :
    ((linesOf msg).foldl applyLine ⟨none, none, none, none⟩).nama =
      lastMatchValue "nama".data (linesOf msg) := by
  rw [foldl_field (fun st => st.nama) "nama".data applyLine_nama]
  cases hl : lastMatchValue "nama".data (linesOf msg) <;> rfl

theorem parse_state_kodeBarang (msg : String) :
    ((linesOf msg).foldl applyLine ⟨none, none, none, none⟩).kodeBarang =
      lastMatchValue "kode barang".data (linesOf msg) := by
  rw [foldl_field (fun st => st.kodeBarang) "kode barang".data applyLine_kodeBarang]
  cases hl : lastMatchValue "kode barang".data (linesOf msg) <;> rfl

theorem parse_state_alamat (msg : String) :
    ((linesOf msg).foldl applyLine ⟨none, none, none, none⟩).alamat =
      lastMatchValue "alamat".data (linesOf msg) := by
  rw [foldl_field (fun st => st.alamat) "alamat".data applyLine_alamat]
  cases hl : lastMatchValue "alamat".data (linesOf msg) <;> rfl

theorem parse_state_resi (msg : String) :
    ((linesOf msg).foldl applyLine ⟨none, none, none, none⟩).resi =
      lastMatchValue "resi".data (linesOf msg) := by
  rw [foldl_field (fun st => st.resi) "resi".data applyLine_resi]
  cases hl : lastMatchValue "resi".data (linesOf msg) <;> rfl

theorem lastMatchValue_isSome_eq_hasLabel (lab : List Char) (lines : List (List Char)) :
    (lastMatchValue lab lines).isSome = hasLabel lab lines := by
  unfold lastMatchValue hasLabel
  rcases hlst : (lines.filterMap (labelValue lab)).getLast? with _ | v
  · have hnil : lines.filterMap (labelValue lab) = [] := List.getLast?_eq_none_iff.mp hlst
    have : ∀ a ∈ lines, labelValue lab a = none := List.filterMap_eq_nil_iff.mp hnil
    symm
    simp only [Option.isSome_none, List.any_eq_false]
    intro a ha
    simp [this a ha]
  · have hmem : v ∈ lines.filterMap (labelValue lab) :=
      List.mem_of_getLast?_eq_some hlst
    obtain ⟨a, ha, hfa⟩ := List.mem_filterMap.mp hmem
    symm
    simp only [Option.isSome_some, List.any_eq_true]
    exact ⟨a, ha, by simp [hfa]⟩

/-- Claim C4: the parser splits each line at the first colon, strips and
lowercases the key, and matches labels by substring: the parse succeeds
exactly when every one of the four labels occurs on some line (in any
order and any casing), and each produced field is the stripped value of
the last line carrying its label. -/
theorem c4_parser_characterisation (msg : String) :
    ((parse_order_message msg).isSome = true ↔
      (hasLabel "nama".data (linesOf msg) = true ∧
       hasLabel "kode barang".data (linesOf msg) = true ∧
       hasLabel "alamat".data (linesOf msg) = true ∧
       hasLabel "resi".data (linesOf msg) = true)) ∧
    (∀ d, parse_order_message msg = some d →
      lastMatchValue "nama".data (linesOf msg) = some d.nama.data ∧
      lastMatchValue "kode barang".data (linesOf msg) = some d.kodeBarang.data ∧
      lastMatchValue "alamat".data (linesOf msg) = some d.alamat.data ∧
      lastMatchValue "resi".data (linesOf msg) = some d.resi.data) := by
  have e1 := parse_state_nama msg
  have e2 := parse_state_kodeBarang msg
  have e3 := parse_state_alamat msg
  have e4 := parse_state_resi msg
  rcases hst : (linesOf msg).foldl applyLine ⟨none, none, none, none⟩ with ⟨f1, f2, f3, f4⟩
  rw [hst] at e1 e2 e3 e4
  simp only at e1 e2 e3 e4
  constructor
  · have hsome : (parse_order_message msg).isSome =
        (f1.isSome && f2.isSome && f3.isSome && f4.isSome) := by
      unfold parse_order_message
      rw [hst]
      cases f1 <;> cases f2 <;> cases f3 <;> cases f4 <;> rfl
    rw [e1, e2, e3, e4] at hsome
    rw [hsome]
    simp only [lastMatchValue_isSome_eq_hasLabel, Bool.and_eq_true, and_assoc]
  · intro d hd
    unfold parse_order_message at hd
    rw [hst] at hd
    cases f1 with
    | none => cases f2 <;> cases f3 <;> cases f4 <;> simp at hd
    | some n =>
      cases f2 with
      | none => cases f3 <;> cases f4 <;> simp at hd
      | some k =>
        cases f3 with
        | none => cases f4 <;> simp at hd
        | some a =>
          cases f4 with
          | none => simp at hd
          | some r =>
            have hdd : d = ⟨⟨n⟩, ⟨k⟩, ⟨a⟩, ⟨r⟩⟩ := by
              cases hd
              rfl
            subst hdd
            exact ⟨e1.symm, e2.symm, e3.symm, e4.symm⟩

theorem c4_parser_characterisation_witness :
    parse_order_message "NAMA: Bob\nKode Barang: K1\nalamat : Bdg\nResi: R1\nnama: Ann" =
      some ⟨"Ann", "K1", "Bdg", "R1"⟩ ∧
    lastMatchValue "nama".data
        (linesOf "NAMA: Bob\nKode Barang: K1\nalamat : Bdg\nResi: R1\nnama: Ann") =
      some "Ann".data :=
  ⟨by decide,
   ((c4_parser_characterisation
       "NAMA: Bob\nKode Barang: K1\nalamat : Bdg\nResi: R1\nnama: Ann").2
     ⟨"Ann", "K1", "Bdg", "R1"⟩ (by decide)).1⟩

/-- Claim C5: a successful submission appends a record whose status
column is the fixed packing value, and the id returned to the user is
ORD- followed by the raw row count of the ledger read before the
append. -/
theorem c5_submission_id_from_row_count (chatId : Nat) (msg : String) (d : OrderData)
    (w : World)
    (hcari : startsWithList "cari ".data (pyLower msg.data) = false)
    (hm1 : containsSubList "nama:".data (pyLower msg.data) = true)
    (hm2 : containsSubList "kode barang:".data (pyLower msg.data) = true)
    (hparse : parse_order_message msg = some d)
    (hconn : w.connOk = true) :
    handle_ticket_system chatId msg w =
      ("Data berhasil disimpan dengan ID Order <b>" ++
         ("ORD-" ++ Nat.repr (rowCount w)) ++ "</b>",
       { w with ledger := w.ledger ++ [newOrderRow chatId d w] }) ∧
    (newOrderRow chatId d w).status_pengiriman = "Sedang dikemas" := by
  constructor
  · simp [handle_ticket_system, hcari, hm1, hm2, hparse, input_data_sheets, hconn]
  · rfl

theorem c5_submission_id_from_row_count_witness :
    parse_order_message "nama: a\nkode barang: b\nalamat: c\nresi: d" =
      some ⟨"a", "b", "c", "d"⟩ ∧
    handle_ticket_system 7 "nama: a\nkode barang: b\nalamat: c\nresi: d"
        ⟨true, 1, [], [], "2024-01-02 03:04:05"⟩ =
      ("Data berhasil disimpan dengan ID Order <b>" ++ ("ORD-" ++ Nat.repr 1) ++ "</b>",
       ⟨true, 1, [⟨1, "ORD-1", "2024-01-02 03:04:05", "a", "b", "c", "d", "Sedang dikemas", 7⟩],
        [], "2024-01-02 03:04:05"⟩) :=
  ⟨by decide,
   (c5_submission_id_from_row_count 7 "nama: a\nkode barang: b\nalamat: c\nresi: d"
      ⟨"a", "b", "c", "d"⟩ ⟨true, 1, [], [], "2024-01-02 03:04:05"⟩
      (by decide) (by decide) (by decide) (by decide) rfl).1⟩

/-- Claim C1 counterexample: the input below leaves the name field empty
after parsing, yet the parser accepts it and the handler appends a record
to the ledger — so records are created with empty fields, against the
non-empty half of the claim. -/
theorem c1_empty_field_still_creates_record :
    parse_order_message "nama:\nkode barang: b\nalamat: c\nresi: d" =
      some ⟨"", "b", "c", "d"⟩ ∧
    (handle_ticket_system 7 "nama:\nkode barang: b\nalamat: c\nresi: d"
        ⟨true, 1, [], [], "t"⟩).2.ledger.length = 1 := by
  constructor
  · decide
  · decide

/-- Claim C1 (amended): a record is appended only when the parse assigns
all four required fields, with empty-string values allowed — when the
parse fails the ledger is untouched, and when the ledger changes it
changed exactly by appending the record built from a successful parse. -/
theorem c1_record_requires_parsed_fields (chatId : Nat) (msg : String) (w : World) :
    (parse_order_message msg = none →
      (handle_ticket_system chatId msg w).2.ledger = w.ledger) ∧
    ((handle_ticket_system chatId msg w).2.ledger ≠ w.ledger →
      ∃ d, parse_order_message msg = some d ∧
        (handle_ticket_system chatId msg w).2.ledger = w.ledger ++ [newOrderRow chatId d w]) := by
  by_cases hc : startsWithList "cari ".data (pyLower msg.data) = true
  · constructor
    · intro _; simp [handle_ticket_system, hc]
    · intro h; exact absurd (by simp [handle_ticket_system, hc]) h
  · have hc' : startsWithList "cari ".data (pyLower msg.data) = false := by
      simpa using hc
    by_cases hm : (containsSubList "nama:".data (pyLower msg.data) &&
        containsSubList "kode barang:".data (pyLower msg.data)) = true
    · cases hp : parse_order_message msg with
      | none =>
        constructor
        · intro _; simp [handle_ticket_system, hc', hm, hp]
        · intro h; exact absurd (by simp [handle_ticket_system, hc', hm, hp]) h
      | some d =>
        by_cases hw : w.connOk = true
        · constructor
          · intro h; simp [hp] at h
          · intro _
            exact ⟨d, rfl, by
              simp [handle_ticket_system, hc', hm, hp, input_data_sheets, hw]⟩
        · have hw' : w.connOk = false := by simpa using hw
          constructor
          · intro _; simp [handle_ticket_system, hc', hm, hp, input_data_sheets, hw']
          · intro h
            exact absurd (by simp [handle_ticket_system, hc', hm, hp, input_data_sheets, hw']) h
    · have hm' : (containsSubList "nama:".data (pyLower msg.data) &&
          containsSubList "kode barang:".data (pyLower msg.data)) = false := by simpa using hm
      constructor
      · intro _; simp [handle_ticket_system, hc', hm']
      · intro h; exact absurd (by simp [handle_ticket_system, hc', hm']) h

theorem c1_record_requires_parsed_fields_witness :
    parse_order_message "alamat: only" = none ∧
    (handle_ticket_system 7 "alamat: only" ⟨true, 1, [], [], "t"⟩).2.ledger =
      (⟨true, 1, [], [], "t"⟩ : World).ledger :=
  ⟨by decide,
   (c1_record_requires_parsed_fields 7 "alamat: only" ⟨true, 1, [], [], "t"⟩).1 (by decide)⟩

theorem c3_reply_priority_witness :
    (handle_chatbot (ApiResult.response 200 (some ⟨none, none, some "hi"⟩))
        ⟨true, 1, [], [], "t"⟩).reply = "hi" ∧
    (handle_chatbot (ApiResult.response 200 (some ⟨none, none, none⟩))
        ⟨true, 1, [], [], "t"⟩).reply = "Maaf, chatbot tidak dapat merespons saat ini." :=
  ⟨(c3_reply_priority ⟨none, none, some "hi"⟩ ⟨true, 1, [], [], "t"⟩).2.2.1
      (Or.inl rfl) (Or.inl rfl) "hi" rfl (by decide),
   (c3_reply_priority ⟨none, none, none⟩ ⟨true, 1, [], [], "t"⟩).2.2.2 rfl rfl rfl⟩

end App

